import Mathlib

/-!
# Dark-chess matchmaking and game session: verification development

Shallow embedding of the dark-chess server core: the persistent data model
(`models.py`: `User`, `Game`, `Move`), the cache/ticket store, the
matchmaking queue behind `game/new`, and the game-session state machine
(move / draw / resign / info).

`models.py` is embedded directly.  The request handlers (matchmaking and the
per-game operations), the cache wrapper, and `consts`/`helpers`/`config` are
not part of the available sources; those are modelled from the specification,
constrained by the repository's own handler tests (`tests/handlers_t.py`),
and each such definition is marked `Modelled from the spec:` in its
doc comment.
-/

namespace DarkChess

/-- Modelled from the spec: player colors.  `consts.py` (with the concrete
integer values of `WHITE`/`BLACK` stored in `Game.next_color`) is not among
the available sources, so colors are modelled as a two-element type. -/
inductive Color where
  | white
  | black
deriving DecidableEq, Repr

/-- The opposite color (the flip applied to `next_color` after a move). -/
def Color.other : Color → Color
  | .white => .black
  | .black => .white

theorem Color.other_other (c : Color) : c.other.other = c := by
  cases c <;> rfl

theorem Color.other_ne (c : Color) : c.other ≠ c := by
  cases c <;> simp [Color.other]

/-! ## Cache (key-value store with overwrite semantics)

Modelled from the spec: `cache.py` (`set_cache` / `get_cache`, backed by a
TTL-capable key-value store) is not among the available sources.  It is
modelled as an association list where a `set` overwrites any previous
binding of the same key. -/

/-- Modelled from the spec: `set_cache(key, value)` — store `v` under string
key `k`, overwriting any previous binding. -/
def set_cache {α : Type} (k : String) (v : α) (c : List (String × α)) :
    List (String × α) :=
  (k, v) :: c.filter (fun p => !(p.1 == k))

/-- Modelled from the spec: `get_cache(key)` — look up the value bound to
`k`, or `none` when the key is absent. -/
def get_cache {α : Type} (k : String) (c : List (String × α)) : Option α :=
  (c.find? (fun p => p.1 == k)).map (fun p => p.2)

theorem get_set_cache_same {α : Type} (k : String) (v : α)
    (c : List (String × α)) : get_cache k (set_cache k v c) = some v := by
  simp [get_cache, set_cache]

theorem find?_filter_ne {α : Type} (k k' : String) (h : k' ≠ k)
    (c : List (String × α)) :
    List.find? (fun p => p.1 == k') (c.filter (fun p => !(p.1 == k))) =
      List.find? (fun p => p.1 == k') c := by
  induction c with
  | nil => rfl
  | cons p rest ih =>
    by_cases hp : p.1 = k
    · have h2 : (p.1 == k') = false := by
        simp only [beq_eq_false_iff_ne, ne_eq, hp]
        exact fun he => h he.symm
      have hbk : (k == k') = false := by
        simp only [beq_eq_false_iff_ne, ne_eq]
        exact fun he => h he.symm
      simp [List.filter_cons, hp, List.find?_cons, h2, hbk, ih]
    · cases hfind : (p.1 == k') with
      | true => simp [List.filter_cons, hp, List.find?_cons, hfind]
      | false => simp [List.filter_cons, hp, List.find?_cons, hfind, ih]

theorem get_set_cache_other {α : Type} (k k' : String) (v : α)
    (c : List (String × α)) (h : k' ≠ k) :
    get_cache k' (set_cache k v c) = get_cache k' c := by
  have hbk : (k == k') = false := by
    simp only [beq_eq_false_iff_ne, ne_eq]
    exact fun he => h he.symm
  simp [get_cache, set_cache, List.find?_cons, hbk, find?_filter_ne k k' h c]

/-! ## `models.py`: `User` and `User.authenticate` -/

/-- Embedding of the `User` row of `models.py` (primary key, unique
username, stored encrypted password, optional email, optional
verification date). -/
structure User where
  pk : Nat
  username : String
  password : String
  email : Option String
  date_verified : Option Nat
deriving DecidableEq, Repr

/-- A user row matches a login attempt when both the username and the
encrypted password coincide (`cls.get(username=..., password=encryptPassword(...))`). -/
def loginMatches (enc : String → String) (username password : String)
    (u : User) : Bool :=
  u.username == username && u.password == enc password

/-- Embedding of `User.authenticate` (`models.py` lines 28–36): look up the
user by username and encrypted password; on `DoesNotExist` return `False`
(modelled as `none`), otherwise generate a token, cache `token ↦ (pk, SESSION_TIME)`
and return the token.  `encryptPassword`/`generateToken`/`config.SESSION_TIME`
live in files not among the available sources, so they enter as the
parameters `enc`, `token` and `sessionTime`. -/
def User.authenticate (enc : String → String) (token : String)
    (sessionTime : Nat) (users : List User)
    (cache : List (String × Nat × Nat)) (username password : String) :
    Option String × List (String × Nat × Nat) :=
  match users.find? (loginMatches enc username password) with
  | none => (none, cache)
  | some u => (some token, set_cache token (u.pk, sessionTime) cache)

/-! ## `models.py`: `Game`, `Move`, `add_move`, `save_state` -/

/-- Embedding of the `Game` row of `models.py`: optional white/black player
(user pk), creation date, optional end date, optional serialized state,
state-change date, and the color to move next (default `WHITE`). -/
structure Game where
  pk : Nat
  player_white : Option Nat
  player_black : Option Nat
  date_created : Nat
  date_end : Option Nat
  state : Option String
  date_state : Nat
  next_color : Color
deriving DecidableEq, Repr

/-- Embedding of the `Move` row of `models.py`: owning game, 1-based
sequence number, one-character figure, move notation. -/
structure MoveRow where
  game : Nat
  number : Nat
  figure : String
  move : String
deriving DecidableEq, Repr

/-- The database tables touched by the `Game` mutators: the `Game` rows and
the append-only `Move` rows. -/
structure DB where
  games : List Game
  moves : List MoveRow
deriving DecidableEq, Repr

/-- `self.moves.select()` — the stored moves belonging to game `g`, in
insertion order. -/
def movesOf (db : DB) (g : Nat) : List MoveRow :=
  db.moves.filter (fun r => r.game == g)

/-- Embedding of `Game.add_move` (`models.py` lines 57–59): count the
game's moves, and create a `Move` row numbered count + 1.  The `Game` row
itself is not written. -/
def DB.add_move (db : DB) (g : Nat) (figure mv : String) : DB :=
  let num := (movesOf db g).length + 1
  { db with moves := db.moves ++ [⟨g, num, figure, mv⟩] }

/-- Embedding of `Game.save_state` (`models.py` lines 61–65): set `state`,
`next_color` and `date_state := now`, then save the row. -/
def Game.save_state (gm : Game) (st : String) (nc : Color) (now : Nat) :
    Game :=
  { gm with state := some st, next_color := nc, date_state := now }

/-- Modelled from the spec: the `moves` handler (`listMoves`) is not among
the available sources; per the spec it returns the game's moves ordered
oldest first (insertion order of the append-only `Move` table), empty for
a fresh game. -/
def listMoves (db : DB) (g : Nat) : List MoveRow :=
  movesOf db g

/-- Repeated `add_move` calls for game `g`, one per `(figure, move)` pair. -/
def addMoves (db : DB) (g : Nat) : List (String × String) → DB
  | [] => db
  | (f, m) :: rest => addMoves (db.add_move g f m) g rest

/-- A database with no rows at all. -/
def emptyDB : DB := ⟨[], []⟩

theorem movesOf_add_move (db : DB) (g : Nat) (f m : String) :
    movesOf (db.add_move g f m) g =
      movesOf db g ++ [⟨g, (movesOf db g).length + 1, f, m⟩] := by
  simp [movesOf, DB.add_move, List.filter_append]

theorem movesOf_add_move_games (db : DB) (g : Nat) (f m : String) :
    (db.add_move g f m).games = db.games := by
  simp [DB.add_move]

theorem addMoves_numbers (g : Nat) (l : List (String × String)) (db : DB) :
    (movesOf (addMoves db g l) g).map (fun r => r.number) =
      (movesOf db g).map (fun r => r.number) ++
        List.range' ((movesOf db g).length + 1) l.length := by
  induction l generalizing db with
  | nil => simp [addMoves]
  | cons fm rest ih =>
    obtain ⟨f, m⟩ := fm
    simp only [addMoves]
    rw [ih, movesOf_add_move]
    simp [List.range'_succ]

/-! ## GameSession state machine

Modelled from the spec: the per-game handlers (`move`, `draw/accept`,
`draw/refuse`, `resign`, `info`) and the game engine are not among the
available sources.  The session state machine is modelled from spec §4.3,
constrained by the handler tests (`tests/handlers_t.py`,
`test_game_move_2`, `test_draw_accept`, `test_draw_refuse_1/2`,
`test_resign`). -/

/-- Terminal reason of an ended game (spec §4.3). -/
inductive EndReason where
  | externalRules
  | resignation
  | drawAgreed
  | timeout
deriving DecidableEq, Repr

/-- Typed failures of the session operations (spec §7). -/
inductive Err where
  | unknownToken
  | notYourTurn
  | gameEnded
deriving DecidableEq, Repr

/-- Modelled from the spec: the live state of one paired game session —
whether (and why) it ended, the color to move, the pending draw offer, and
the accepted moves in order. -/
structure Session where
  ended : Option EndReason
  next_color : Color
  draw_offer : Option Color
  moves : List (String × String)
deriving DecidableEq, Repr

/-- A freshly paired session: in progress, white to move (the `next_color`
default of `models.py` line 55), no draw offer, no moves. -/
def freshSession : Session :=
  { ended := none, next_color := .white, draw_offer := none, moves := [] }

/-- Modelled from the spec: `move(token, piece, moveNotation)` — fails
`GameEnded` when terminal, `NotYourTurn` when the caller's color is not
`next_color`; on success appends the move, flips `next_color` and clears
any pending draw offer. -/
def Session.move (s : Session) (c : Color) (piece mv : String) :
    Except Err Session :=
  match s.ended with
  | some _ => .error .gameEnded
  | none =>
    if c = s.next_color then
      .ok { s with moves := s.moves ++ [(piece, mv)],
                   next_color := s.next_color.other, draw_offer := none }
    else
      .error .notYourTurn

/-- Modelled from the spec: `offerOrAcceptDraw(token)` — fails `GameEnded`
when terminal; with no pending offer, records the caller's color; with a
pending offer from the other color, ends the game `draw-agreed`; a repeated
offer by the same color does not finalize. -/
def Session.offerOrAcceptDraw (s : Session) (c : Color) :
    Except Err Session :=
  match s.ended with
  | some _ => .error .gameEnded
  | none =>
    match s.draw_offer with
    | none => .ok { s with draw_offer := some c }
    | some c' =>
      if c' = c then
        .ok s
      else
        .ok { s with ended := some .drawAgreed, draw_offer := none }

/-- Modelled from the spec: `refuseDraw(token)` — fails `GameEnded` when
terminal; otherwise clears any pending offer, succeeding as a no-op when
none is pending. -/
def Session.refuseDraw (s : Session) (_c : Color) : Except Err Session :=
  match s.ended with
  | some _ => .error .gameEnded
  | none => .ok { s with draw_offer := none }

/-- Modelled from the spec: `resign(token)` — fails `GameEnded` when
terminal; otherwise ends the game with reason `resignation` (any pending
draw offer clears on entering `Ended`, spec §9). -/
def Session.resign (s : Session) (_c : Color) : Except Err Session :=
  match s.ended with
  | some _ => .error .gameEnded
  | none => .ok { s with ended := some .resignation, draw_offer := none }

/-- Modelled from the spec: `info(token)` — read-only; reports the end
state and the color to move, and succeeds even on an ended game. -/
def Session.info (s : Session) : Except Err (Option EndReason × Color) :=
  .ok (s.ended, s.next_color)

/-- One mutating session operation together with the caller's color. -/
inductive Op where
  | move (c : Color) (piece mv : String)
  | offerDraw (c : Color)
  | refuseDraw (c : Color)
  | resign (c : Color)
deriving DecidableEq, Repr

/-- Dispatch one mutating operation. -/
def Session.apply (s : Session) : Op → Except Err Session
  | .move c p m => s.move c p m
  | .offerDraw c => s.offerOrAcceptDraw c
  | .refuseDraw c => s.refuseDraw c
  | .resign c => s.resign c

/-- Run one operation, keeping the old state when the call fails. -/
def Session.run (s : Session) (o : Op) : Session × Option Err :=
  match s.apply o with
  | .ok s' => (s', none)
  | .error e => (s, some e)

/-- Run a list of move calls, failing if any single call fails. -/
def runMoves (s : Session) : List (Color × String × String) → Option Session
  | [] => some s
  | (c, p, m) :: rest =>
    match s.move c p m with
    | .ok s' => runMoves s' rest
    | .error _ => none

theorem move_ok_next_color (s s' : Session) (c : Color) (p m : String)
    (h : s.move c p m = .ok s') :
    s'.next_color = s.next_color.other ∧ s'.ended = none ∧
      c = s.next_color := by
  unfold Session.move at h
  cases he : s.ended with
  | some r => rw [he] at h; exact absurd h (by simp)
  | none =>
    rw [he] at h
    by_cases hc : c = s.next_color
    · rw [if_pos hc] at h
      cases h
      exact ⟨rfl, rfl, hc⟩
    · rw [if_neg hc] at h
      exact absurd h (by simp)

theorem runMoves_parity (l : List (Color × String × String))
    (s s' : Session) (h : runMoves s l = some s') :
    s'.next_color =
      (if l.length % 2 = 0 then s.next_color else s.next_color.other) := by
  induction l generalizing s with
  | nil =>
    simp only [runMoves, Option.some.injEq] at h
    simp [← h]
  | cons cpm rest ih =>
    obtain ⟨c, p, m⟩ := cpm
    simp only [runMoves] at h
    cases hm : s.move c p m with
    | error e => rw [hm] at h; exact absurd h (by simp)
    | ok s1 =>
      rw [hm] at h
      have hnc := (move_ok_next_color s s1 c p m hm).1
      have := ih s1 h
      rw [this, hnc]
      rcases Nat.mod_two_eq_zero_or_one rest.length with hr | hr
      · have hr1 : (rest.length + 1) % 2 = 1 := by omega
        simp [List.length_cons, hr, hr1]
      · have hr1 : (rest.length + 1) % 2 = 0 := by omega
        simp [List.length_cons, hr, hr1, Color.other_other]

/-! ## Matchmaking queue (`game/new`)

Modelled from the spec: the `game/new` handler and its queue helpers
(`get_prefix`, `get_queue_name`, the cache-backed waiting lists) are not
among the available sources.  The model follows spec §4.1, constrained by
the handler tests: `test_new_game_2` (same type and limit pair, waiting
ticket is white, cache holds `(game.pk, color, opponentToken)`),
`test_new_game_4/5` (a limitless request pairs with a limited one in either
order), `test_new_game_6` (two limitless requests in a typed bucket do
*not* pair), `test_new_game_7` (a second request by the same identity
supersedes the first waiting entry), `test_new_game_3` and the `new_game`
helper (two requests of the default no-limit type pair). -/

/-- The game types offered by the server (`game/types` handler test:
`no limit`, `slow`, `fast`). -/
inductive GameType where
  | noLimit
  | slow
  | fast
deriving DecidableEq, Repr

/-- A waiting matchmaking entry: the ticket token, the owner identity
(absent for anonymous play) and the requested time limit, if any. -/
structure QueueEntry where
  token : String
  user : Option Nat
  limit : Option Nat
deriving DecidableEq, Repr

/-- A `SessionTicket`: the cache value stored under a paired token —
game pk, assigned color, and the opponent's token (`test_new_game_2`:
`get_cache(token) = (game.pk, color, other_token)`). -/
structure Ticket where
  gamePk : Nat
  color : Color
  opponent : String
deriving DecidableEq, Repr

/-- One waiting list per game type (the queue is keyed by game type alone,
`test_new_game_7`: `get_queue_name(get_prefix(game_type))`). -/
structure Queues where
  qNoLimit : List QueueEntry
  qSlow : List QueueEntry
  qFast : List QueueEntry
deriving DecidableEq, Repr

/-- The waiting list of one game type. -/
def Queues.get (qs : Queues) : GameType → List QueueEntry
  | .noLimit => qs.qNoLimit
  | .slow => qs.qSlow
  | .fast => qs.qFast

/-- Replace the waiting list of one game type. -/
def Queues.set (qs : Queues) : GameType → List QueueEntry → Queues
  | .noLimit, q => { qs with qNoLimit := q }
  | .slow, q => { qs with qSlow := q }
  | .fast, q => { qs with qFast := q }

theorem Queues.get_set_same (qs : Queues) (gt : GameType)
    (q : List QueueEntry) : (qs.set gt q).get gt = q := by
  cases gt <;> rfl

/-- The full matchmaking state: waiting lists, created `Game` rows, the
token → `SessionTicket` cache, and the next primary key to assign. -/
structure MatchState where
  queues : Queues
  games : List Game
  tickets : List (String × Ticket)
  nextPk : Nat
deriving DecidableEq, Repr

/-- The state before any request: empty buckets, no games, no tickets. -/
def emptyMatchState : MatchState :=
  { queues := ⟨[], [], []⟩, games := [], tickets := [], nextPk := 1 }

/-- Outcome of a `game/new` request: a waiting (unpaired) ticket, or a
ticket whose arrival completed a pairing. -/
inductive RequestOutcome where
  | waiting (token : String)
  | paired (token : String)
deriving DecidableEq, Repr

/-- Modelled from the spec: limit compatibility checked at pop time
(spec §4.1 step 5).  In the no-limit game type every waiting entry is
compatible; in a typed bucket a pair is compatible when at least one side
specifies a time limit (`test_new_game_2/4/5` pair, `test_new_game_6`
does not). -/
def compatible (gt : GameType) (lim : Option Nat) (e : QueueEntry) : Bool :=
  gt == GameType.noLimit || e.limit.isSome || lim.isSome

/-- Pop the first (FIFO) entry satisfying `p`, returning it together with
the remaining queue. -/
def popFirst (p : QueueEntry → Bool) :
    List QueueEntry → Option (QueueEntry × List QueueEntry)
  | [] => none
  | e :: rest =>
    if p e then
      some (e, rest)
    else
      (popFirst p rest).map (fun er => (er.1, e :: er.2))

/-- Modelled from the spec: step 1 of `requestMatch` (spec §4.1) — an
authenticated identity's own waiting entries are removed from the bucket
before the pop, so a re-request supersedes the stale ticket and a caller
can never pair with itself (`test_new_game_7`). -/
def supersede (q : List QueueEntry) : Option Nat → List QueueEntry
  | none => q
  | some u => q.filter (fun e => !(e.user == some u))

/-- Modelled from the spec: `requestMatch` (the `game/new` handler),
spec §4.1.  Step 1: when the caller is authenticated, remove any waiting
entry of the same identity from the bucket (supersede, and never
self-pair).  Step 2: pop the first compatible waiting entry.  Step 3: on a
pop, create the `Game` (waiting ticket is white, newcomer is black,
`next_color = white`, per `test_new_game_2`) and publish the two
`SessionTicket`s.  Step 4: otherwise enqueue the fresh ticket. -/
def requestMatch (st : MatchState) (gt : GameType) (lim : Option Nat)
    (user : Option Nat) (tok : String) (now : Nat) :
    MatchState × RequestOutcome :=
  let q1 := supersede (st.queues.get gt) user
  match popFirst (compatible gt lim) q1 with
  | some (e, rest) =>
    let pk := st.nextPk
    let g : Game :=
      { pk := pk, player_white := e.user, player_black := user,
        date_created := now, date_end := none, state := none,
        date_state := now, next_color := .white }
    ({ st with
        queues := st.queues.set gt rest,
        games := st.games ++ [g],
        tickets :=
          set_cache e.token ⟨pk, .white, tok⟩
            (set_cache tok ⟨pk, .black, e.token⟩ st.tickets),
        nextPk := pk + 1 },
     .paired tok)
  | none =>
    ({ st with queues := st.queues.set gt (q1 ++ [⟨tok, user, lim⟩]) },
     .waiting tok)

/-! ## Claim theorems -/

/-- C10: `add_move` only creates a new `Move` row and leaves every `Game`
row unchanged, while `save_state` updates exactly `state`, `next_color`
and `date_state`, leaving `player_white`, `player_black`, `date_created`
and `date_end` (and the pk) unchanged; neither operation can end a game. -/
theorem game_mutators_frame (db : DB) (g : Nat) (f m : String)
    (gm : Game) (st : String) (nc : Color) (now : Nat) :
    (db.add_move g f m).games = db.games ∧
    (db.add_move g f m).moves =
      db.moves ++ [⟨g, (movesOf db g).length + 1, f, m⟩] ∧
    (gm.save_state st nc now).pk = gm.pk ∧
    (gm.save_state st nc now).player_white = gm.player_white ∧
    (gm.save_state st nc now).player_black = gm.player_black ∧
    (gm.save_state st nc now).date_created = gm.date_created ∧
    (gm.save_state st nc now).date_end = gm.date_end ∧
    (gm.save_state st nc now).state = some st ∧
    (gm.save_state st nc now).next_color = nc ∧
    (gm.save_state st nc now).date_state = now :=
  ⟨rfl, rfl, rfl, rfl, rfl, rfl, rfl, rfl, rfl, rfl⟩

/-- C8: each `add_move` call assigns sequence number (current count of the
game's moves) + 1, so after N calls the numbers are exactly 1..N, 1-based,
strictly increasing with no gaps; `listMoves` returns the moves oldest
first and is empty for a fresh game. -/
theorem move_numbering :
    (∀ db g f m, movesOf (db.add_move g f m) g =
        movesOf db g ++ [⟨g, (movesOf db g).length + 1, f, m⟩]) ∧
    (∀ g l, (listMoves (addMoves emptyDB g l) g).map (fun r => r.number) =
        List.range' 1 l.length) ∧
    (∀ g, listMoves emptyDB g = []) := by
  refine ⟨movesOf_add_move, ?_, fun g => rfl⟩
  intro g l
  have h := addMoves_numbers g l emptyDB
  simpa [listMoves, movesOf, emptyDB] using h

/-- C9: `User.authenticate` never raises on a failed login — with no
stored user matching the username and encrypted password it returns
`False` (embedded as `none`) and leaves the cache alone; on a match it
returns the generated token and caches `token ↦ (pk, SESSION_TIME)`. -/
theorem authenticate_spec (enc : String → String) (token : String)
    (ttl : Nat) (users : List User) (cache : List (String × Nat × Nat))
    (username password : String) :
    ((∀ u ∈ users, ¬(u.username = username ∧ u.password = enc password)) →
        User.authenticate enc token ttl users cache username password =
          (none, cache)) ∧
    (∀ u, users.find? (loginMatches enc username password) = some u →
        User.authenticate enc token ttl users cache username password =
            (some token, set_cache token (u.pk, ttl) cache) ∧
          get_cache token (set_cache token (u.pk, ttl) cache) =
            some (u.pk, ttl)) := by
  constructor
  · intro hno
    have hfind :
        users.find? (loginMatches enc username password) = none := by
      rw [List.find?_eq_none]
      intro u hu
      have h := hno u hu
      simp only [loginMatches, Bool.and_eq_true, beq_iff_eq]
      exact fun hc => h hc
    simp [User.authenticate, hfind]
  · intro u hu
    exact ⟨by simp [User.authenticate, hu], get_set_cache_same _ _ _⟩

/-- A stored user row used to instantiate `authenticate_spec`. -/
def demoUser : User := ⟨1, "user1", "secret", none, none⟩

/-- Witness for C9: with the single stored user `demoUser`, a wrong
username fails and returns the cache unchanged, and the right credentials
return the token. -/
theorem authenticate_spec_witness :
    User.authenticate (fun s => s) "tok" 3600 [demoUser] [] "nobody"
        "secret" = (none, []) ∧
    User.authenticate (fun s => s) "tok" 3600 [demoUser] [] "user1"
        "secret" = (some "tok", set_cache "tok" (1, 3600) []) :=
  ⟨(authenticate_spec (fun s => s) "tok" 3600 [demoUser] [] "nobody"
      "secret").1 (by decide),
   ((authenticate_spec (fun s => s) "tok" 3600 [demoUser] [] "user1"
      "secret").2 demoUser (by decide)).1⟩

/-- C5: a fresh game starts with white to move; after any run of N
successful `move` calls `next_color` is white for even N and black for
odd N; and immediately after its own accepted move the same color's next
move attempt fails with `NotYourTurn`. -/
theorem turn_alternation :
    freshSession.next_color = Color.white ∧
    (∀ l s, runMoves freshSession l = some s →
        s.next_color =
          (if l.length % 2 = 0 then Color.white else Color.black)) ∧
    (∀ (s s' : Session) (c : Color) (p m : String),
        s.move c p m = Except.ok s' →
        ∀ p' m', s'.move c p' m' = Except.error Err.notYourTurn) := by
  refine ⟨rfl, ?_, ?_⟩
  · intro l s h
    have hp := runMoves_parity l freshSession s h
    simpa [freshSession, Color.other] using hp
  · intro s s' c p m h p' m'
    obtain ⟨hnc, hend, hc⟩ := move_ok_next_color s s' c p m h
    have hne : ¬(c = s'.next_color) := by
      rw [hnc, ← hc]
      exact fun he => Color.other_ne c he.symm
    simp [Session.move, hend, hne]

/-- The single-move list used to instantiate `turn_alternation`. -/
def demoMoves : List (Color × String × String) :=
  [(Color.white, "p", "e2-e4")]

/-- The session reached from `freshSession` by the accepted move `e2-e4`. -/
def sAfterE4 : Session :=
  { ended := none, next_color := .black, draw_offer := none,
    moves := [("p", "e2-e4")] }

/-- Witness for C5: after the one accepted white move `e2-e4` black is to
move (N = 1 odd), and white's immediate second attempt fails
`NotYourTurn`. -/
theorem turn_alternation_witness :
    sAfterE4.next_color =
        (if demoMoves.length % 2 = 0 then Color.white else Color.black) ∧
    sAfterE4.move Color.white "p" "e4-e5" =
        Except.error Err.notYourTurn :=
  ⟨turn_alternation.2.1 demoMoves sAfterE4 rfl,
   turn_alternation.2.2 freshSession sAfterE4 Color.white "p" "e2-e4" rfl
     "p" "e4-e5"⟩

/-- C6: once a game is `Ended`, every `move`/`resign`/`offerOrAcceptDraw`/
`refuseDraw` call fails with `GameEnded` leaving the state unchanged,
while `info` still succeeds read-only. -/
theorem terminality (s : Session) (r : EndReason) (h : s.ended = some r) :
    (∀ o : Op, s.run o = (s, some Err.gameEnded)) ∧
    s.info = Except.ok (some r, s.next_color) := by
  constructor
  · intro o
    cases o <;>
      simp [Session.run, Session.apply, Session.move,
        Session.offerOrAcceptDraw, Session.refuseDraw, Session.resign, h]
  · simp [Session.info, h]

/-- A session ended by resignation, used to instantiate `terminality`. -/
def endedSession : Session :=
  { ended := some .resignation, next_color := .white, draw_offer := none,
    moves := [] }

/-- Witness for C6: on the resigned game every mutator fails `GameEnded`
with the state unchanged (shown for a `resign` and a `move` call) and
`info` still succeeds. -/
theorem terminality_witness :
    endedSession.run (Op.resign Color.black) =
        (endedSession, some Err.gameEnded) ∧
    endedSession.run (Op.move Color.white "p" "e2-e4") =
        (endedSession, some Err.gameEnded) ∧
    endedSession.info =
        Except.ok (some EndReason.resignation, Color.white) :=
  ⟨(terminality endedSession .resignation rfl).1 (Op.resign Color.black),
   (terminality endedSession .resignation rfl).1
     (Op.move Color.white "p" "e2-e4"),
   (terminality endedSession .resignation rfl).2⟩

/-- C7: with no pending offer, `offerOrAcceptDraw` records the caller's
color without ending the game; a repeated offer by the same color does not
end it; an offer by the other color ends it `draw-agreed`; `refuseDraw` by
either color clears the pending offer (and succeeds as a no-op with none
pending), after which a single offer by the other color does not end the
game. -/
theorem draw_protocol (s : Session) (c d : Color)
    (h : s.ended = none) (h2 : s.draw_offer = none) :
    s.offerOrAcceptDraw c = .ok { s with draw_offer := some c } ∧
    ({ s with draw_offer := some c } : Session).ended = none ∧
    Session.offerOrAcceptDraw { s with draw_offer := some c } c =
      .ok { s with draw_offer := some c } ∧
    Session.offerOrAcceptDraw { s with draw_offer := some c } c.other =
      .ok { s with draw_offer := none, ended := some EndReason.drawAgreed } ∧
    Session.refuseDraw { s with draw_offer := some c } d =
      .ok { s with draw_offer := none } ∧
    s.refuseDraw d = .ok { s with draw_offer := none } ∧
    Session.offerOrAcceptDraw { s with draw_offer := none } c.other =
      .ok { s with draw_offer := some c.other } ∧
    ({ s with draw_offer := some c.other } : Session).ended = none := by
  have hoc : ¬(c = c.other) := fun he => Color.other_ne c he.symm
  refine ⟨?_, h, ?_, ?_, ?_, ?_, ?_, h⟩
  · simp [Session.offerOrAcceptDraw, h, h2]
  · simp [Session.offerOrAcceptDraw, h]
  · simp [Session.offerOrAcceptDraw, h, hoc]
  · simp [Session.refuseDraw, h]
  · simp [Session.refuseDraw, h, h2]
  · simp [Session.offerOrAcceptDraw, h]

/-- Witness for C7: on a fresh session, white's offer records the pending
offer without ending the game, and black's following offer ends it
`draw-agreed`. -/
theorem draw_protocol_witness :
    freshSession.offerOrAcceptDraw Color.white =
        .ok { freshSession with draw_offer := some Color.white } ∧
    Session.offerOrAcceptDraw
        { freshSession with draw_offer := some Color.white } Color.black =
      .ok { freshSession with
            draw_offer := none, ended := some EndReason.drawAgreed } :=
  ⟨(draw_protocol freshSession Color.white Color.black rfl rfl).1,
   (draw_protocol freshSession Color.white Color.black rfl rfl).2.2.2.1⟩

theorem requestMatch_empty (gt : GameType) (lim : Option Nat)
    (u : Option Nat) (t : String) (now : Nat) :
    requestMatch emptyMatchState gt lim u t now =
      ({ emptyMatchState with
          queues := (Queues.mk [] [] []).set gt [⟨t, u, lim⟩] },
       .waiting t) := by
  cases u <;> cases gt <;> rfl

/-- C1 counterexample: two `game/new` requests in the same bucket
(`type = slow`, no time limit on either, no prior waiting entry) do not
pair — no `Game` row is created and the second caller is left waiting,
against the claim that the second call always completes the pairing
(`test_new_game_6`). -/
theorem pairing_both_unlimited_counterexample :
    (requestMatch (requestMatch emptyMatchState .slow none none "t1" 0).1
        .slow none none "t2" 0).1.games = [] ∧
    (requestMatch (requestMatch emptyMatchState .slow none none "t1" 0).1
        .slow none none "t2" 0).2 = .waiting "t2" :=
  ⟨rfl, rfl⟩

/-- C1 (amended): for two `requestMatch` calls in the same bucket with no
prior waiting entry, from distinct (or anonymous) identities, where at
least one call specifies a time limit or the game type is the no-limit
type, the first call returns an unpaired ticket and the second completes
the pairing: exactly one `Game` is created with `next_color = white`, and
the two distinct tokens receive tickets, one white and one black. -/
theorem pairing_correctness_amended (gt : GameType) (l1 l2 : Option Nat)
    (u1 u2 : Option Nat) (t1 t2 : String) (now1 now2 : Nat)
    (hne : t1 ≠ t2)
    (hcompat : gt = GameType.noLimit ∨ l1.isSome ∨ l2.isSome)
    (hu : u1 = none ∨ u1 ≠ u2) :
    (requestMatch emptyMatchState gt l1 u1 t1 now1).2 = .waiting t1 ∧
    (requestMatch (requestMatch emptyMatchState gt l1 u1 t1 now1).1
        gt l2 u2 t2 now2).2 = .paired t2 ∧
    (requestMatch (requestMatch emptyMatchState gt l1 u1 t1 now1).1
        gt l2 u2 t2 now2).1.games =
      [{ pk := 1, player_white := u1, player_black := u2,
         date_created := now2, date_end := none, state := none,
         date_state := now2, next_color := Color.white }] ∧
    get_cache t1 (requestMatch (requestMatch emptyMatchState gt l1 u1 t1
        now1).1 gt l2 u2 t2 now2).1.tickets =
      some ⟨1, Color.white, t2⟩ ∧
    get_cache t2 (requestMatch (requestMatch emptyMatchState gt l1 u1 t1
        now1).1 gt l2 u2 t2 now2).1.tickets =
      some ⟨1, Color.black, t1⟩ := by
  rw [requestMatch_empty gt l1 u1 t1 now1]
  have hq0 : ((Queues.mk [] [] []).set gt [⟨t1, u1, l1⟩]).get gt =
      [⟨t1, u1, l1⟩] := Queues.get_set_same _ _ _
  have hq1 : supersede [⟨t1, u1, l1⟩] u2 = [⟨t1, u1, l1⟩] := by
    cases u2 with
    | none => rfl
    | some v =>
      have hv : (u1 == some v) = false := by
        rcases hu with h | h
        · simp [h]
        · simp only [beq_eq_false_iff_ne, ne_eq]
          exact h
      simp [supersede, List.filter_cons, hv]
  have hcomp : compatible gt l2 ⟨t1, u1, l1⟩ = true := by
    rcases hcompat with h | h | h
    · simp [compatible, h]
    · simp [compatible, h]
    · simp [compatible, h]
  have hpop : popFirst (compatible gt l2) (supersede
      (((Queues.mk [] [] []).set gt [⟨t1, u1, l1⟩]).get gt) u2) =
      some (⟨t1, u1, l1⟩, []) := by
    rw [hq0, hq1]
    simp [popFirst, hcomp]
  refine ⟨rfl, ?_, ?_, ?_, ?_⟩
  · simp only [requestMatch, hpop]
  · simp only [requestMatch, hpop, emptyMatchState]
    rfl
  · simp only [requestMatch, hpop]
    exact get_set_cache_same _ _ _
  · simp only [requestMatch, hpop]
    rw [get_set_cache_other t1 t2 _ _ (fun he => hne he.symm)]
    exact get_set_cache_same _ _ _

/-- Witness for C1 (amended): concretely, in bucket `(slow, 1d)` with two
anonymous callers, the first request waits and the second creates the one
game and both tickets. -/
theorem pairing_correctness_amended_witness :
    (requestMatch emptyMatchState .slow (some 86400) none "t1" 0).2 =
        .waiting "t1" ∧
    (requestMatch (requestMatch emptyMatchState .slow (some 86400) none
        "t1" 0).1 .slow (some 86400) none "t2" 0).2 = .paired "t2" ∧
    (requestMatch (requestMatch emptyMatchState .slow (some 86400) none
        "t1" 0).1 .slow (some 86400) none "t2" 0).1.games =
      [{ pk := 1, player_white := none, player_black := none,
         date_created := 0, date_end := none, state := none,
         date_state := 0, next_color := Color.white }] ∧
    get_cache "t1" (requestMatch (requestMatch emptyMatchState .slow
        (some 86400) none "t1" 0).1 .slow (some 86400) none "t2"
        0).1.tickets = some ⟨1, Color.white, "t2"⟩ ∧
    get_cache "t2" (requestMatch (requestMatch emptyMatchState .slow
        (some 86400) none "t1" 0).1 .slow (some 86400) none "t2"
        0).1.tickets = some ⟨1, Color.black, "t1"⟩ :=
  pairing_correctness_amended .slow (some 86400) (some 86400) none none
    "t1" "t2" 0 0 (by decide) (Or.inr (Or.inl rfl)) (Or.inl rfl)

/-- C2: whenever a `requestMatch` call completes a pairing (a waiting
entry `e` is popped), the already-waiting ticket is assigned white and the
newcomer black, and the ticket store holds exactly
`get(e.token) = (gamePk, white, tok)` and `get(tok) = (gamePk, black,
e.token)`, each carrying the opponent's token and the holder's color. -/
theorem pairing_ticket_colors (st : MatchState) (gt : GameType)
    (lim : Option Nat) (u : Option Nat) (tok : String) (now : Nat)
    (e : QueueEntry) (rest : List QueueEntry)
    (hpop : popFirst (compatible gt lim)
        (supersede (st.queues.get gt) u) = some (e, rest))
    (hne : e.token ≠ tok) :
    (requestMatch st gt lim u tok now).2 = .paired tok ∧
    get_cache e.token (requestMatch st gt lim u tok now).1.tickets =
      some ⟨st.nextPk, Color.white, tok⟩ ∧
    get_cache tok (requestMatch st gt lim u tok now).1.tickets =
      some ⟨st.nextPk, Color.black, e.token⟩ ∧
    (requestMatch st gt lim u tok now).1.games =
      st.games ++
        [{ pk := st.nextPk, player_white := e.user, player_black := u,
           date_created := now, date_end := none, state := none,
           date_state := now, next_color := Color.white }] := by
  refine ⟨?_, ?_, ?_, ?_⟩
  · simp only [requestMatch, hpop]
  · simp only [requestMatch, hpop]
    exact get_set_cache_same _ _ _
  · simp only [requestMatch, hpop]
    rw [get_set_cache_other e.token tok _ _ (fun he => hne he.symm)]
    exact get_set_cache_same _ _ _
  · simp only [requestMatch, hpop]

/-- Witness for C2: with `"t1"` already waiting in the no-limit bucket,
the request carrying `"t2"` pairs; `"t1"` is white, `"t2"` is black, and
each ticket names the opponent's token. -/
theorem pairing_ticket_colors_witness :
    (requestMatch (requestMatch emptyMatchState .noLimit none none "t1"
        0).1 .noLimit none none "t2" 0).2 = .paired "t2" ∧
    get_cache "t1" (requestMatch (requestMatch emptyMatchState .noLimit
        none none "t1" 0).1 .noLimit none none "t2" 0).1.tickets =
      some ⟨1, Color.white, "t2"⟩ ∧
    get_cache "t2" (requestMatch (requestMatch emptyMatchState .noLimit
        none none "t1" 0).1 .noLimit none none "t2" 0).1.tickets =
      some ⟨1, Color.black, "t1"⟩ ∧
    (requestMatch (requestMatch emptyMatchState .noLimit none none "t1"
        0).1 .noLimit none none "t2" 0).1.games =
      (requestMatch emptyMatchState .noLimit none none "t1" 0).1.games ++
        [{ pk := 1, player_white := none, player_black := none,
           date_created := 0, date_end := none, state := none,
           date_state := 0, next_color := Color.white }] :=
  pairing_ticket_colors
    (requestMatch emptyMatchState .noLimit none none "t1" 0).1 .noLimit
    none none "t2" 0 ⟨"t1", none, none⟩ [] rfl (by decide)

/-- C3: a request with no explicit time limit pairs with a waiting request
of the same game type that does specify one, and vice versa — in either
order the second request completes the pairing and exactly one game
starts. -/
theorem cross_limit_pairing (gt : GameType) (lim : Nat) (t1 t2 : String)
    (now1 now2 : Nat) :
    ((requestMatch (requestMatch emptyMatchState gt (some lim) none t1
        now1).1 gt none none t2 now2).2 = .paired t2 ∧
      (requestMatch (requestMatch emptyMatchState gt (some lim) none t1
        now1).1 gt none none t2 now2).1.games.length = 1) ∧
    ((requestMatch (requestMatch emptyMatchState gt none none t1
        now1).1 gt (some lim) none t2 now2).2 = .paired t2 ∧
      (requestMatch (requestMatch emptyMatchState gt none none t1
        now1).1 gt (some lim) none t2 now2).1.games.length = 1) := by
  cases gt <;>
    simp [requestMatch, emptyMatchState, Queues.get, Queues.set,
      supersede, popFirst, compatible]

/-- C4: an authenticated identity issuing two consecutive `requestMatch`
calls in the same bucket before being paired leaves exactly one pending
queue entry — the bucket's waiting list holds the second ticket token
alone (the first was removed), the second call returns an unpaired ticket,
and no game was created. -/
theorem supersede_invariant (gt : GameType) (l1 l2 : Option Nat) (u : Nat)
    (t1 t2 : String) (now1 now2 : Nat) :
    (((requestMatch (requestMatch emptyMatchState gt l1 (some u) t1
        now1).1 gt l2 (some u) t2 now2).1.queues.get gt).map
      (fun e => e.token) = [t2]) ∧
    ((requestMatch (requestMatch emptyMatchState gt l1 (some u) t1
        now1).1 gt l2 (some u) t2 now2).2 = .waiting t2) ∧
    ((requestMatch (requestMatch emptyMatchState gt l1 (some u) t1
        now1).1 gt l2 (some u) t2 now2).1.games = []) := by
  cases gt <;>
    simp [requestMatch, emptyMatchState, Queues.get, Queues.set,
      supersede, popFirst, compatible, List.filter_cons]

end DarkChess
